import Mathlib

/-!
Verification of the `votors_automate` voter-information application.

This file shallowly embeds the control-flow core of the repository —
the web-search adapter, the LLM adapter, the structured-response parser,
the context-assembly service, the manifesto/report post-processing and
the engagement logging (all in `candidates/utils.py`, `candidates/services.py`
and `candidates/views.py`) — as executable Lean definitions, and proves or
refutes the behavioural properties stated in the specification.

Modelling conventions:
* Python strings are Lean `String`s; machine-level behaviour (Unicode case
  folding beyond ASCII) is out of scope of the claims.
* Python exceptions raised by library calls are explicit values:
  a fallible collaborator is a function into `Except Unit _` or an
  `Attempt`-typed oracle, and `try/except` blocks become pattern matches.
  An embedded function that can itself propagate an exception returns
  `Except Unit _`; a total return type records that the source function
  never raises to its caller.
* External collaborators (the search provider, the two LLM providers,
  `json.loads`) are universally quantified oracle parameters, so every
  theorem holds for all possible provider behaviours.
-/

namespace Votors

/-- The opening-brace character, `U+007B`. -/
def lbrace : Char := Char.ofNat 123

/-- The closing-brace character, `U+007D`. -/
def rbrace : Char := Char.ofNat 125

/-- Python `\s` / `str.split()` / `str.strip()` whitespace over ASCII:
space, tab, newline, carriage return, vertical tab, form feed. -/
def chWs (c : Char) : Bool :=
  c = ' ' || c = '\t' || c = '\n' || c = '\r' || c = '\x0b' || c = '\x0c'

/-- Index of the first occurrence of `needle` in `hay`, starting the count
at `i`; `none` when `needle` does not occur.  This is the position at which
a Python regex made of the literal `needle` would first match. -/
def firstIdxAux (needle : List Char) : List Char → Nat → Option Nat
  | [], i => if needle = [] then some i else none
  | c :: t, i =>
    if needle.isPrefixOf (c :: t) then some i else firstIdxAux needle t (i + 1)

/-- First occurrence index of the string `needle` in `hay`. -/
def strFirstIdx (needle hay : String) : Option Nat :=
  firstIdxAux needle.data hay.data 0

/-- Python's substring test `needle in hay`. -/
def containsSub (hay needle : String) : Bool :=
  (strFirstIdx needle hay).isSome

/-- Python `str.lower()` restricted to ASCII case folding. -/
def pyLower (s : String) : String := ⟨s.data.map Char.toLower⟩

/-- Python slice `s[:n]`. -/
def pyStrTake (s : String) (n : Nat) : String := ⟨s.data.take n⟩

/-- Strip leading and trailing whitespace, Python `str.strip()`. -/
def trimWsL (l : List Char) : List Char :=
  ((l.dropWhile chWs).reverse.dropWhile chWs).reverse

/-- Python `str.strip()` on strings. -/
def pyStrip (s : String) : String := ⟨trimWsL s.data⟩

/-- Python `"sep".join(parts)`. -/
def pyJoin (sep : String) : List String → String
  | [] => ""
  | p :: rest => rest.foldl (fun acc x => acc ++ sep ++ x) p

/-- Python `str.split()` (split on whitespace runs, dropping empty parts),
with explicit fuel for termination; `fuel` at least the list length makes it
total on the input. -/
def splitWsFuel : Nat → List Char → List (List Char)
  | 0, _ => []
  | _ + 1, [] => []
  | fuel + 1, c :: rest =>
    if chWs c then splitWsFuel fuel rest
    else (c :: rest.takeWhile (fun d => !chWs d))
      :: splitWsFuel fuel (rest.dropWhile (fun d => !chWs d))

/-- Python `str.split()`. -/
def pySplit (s : String) : List String :=
  (splitWsFuel (s.data.length + 1) s.data).map fun l => ⟨l⟩

/-- Python `str.replace(old, new)` — replace every non-overlapping
occurrence, left to right, not rescanning the replacement.  Fuel-based;
faithful for non-empty `old` (the only patterns the source uses). -/
def replaceAllFuel (old new : List Char) : Nat → List Char → List Char
  | 0, hay => hay
  | _ + 1, [] => []
  | fuel + 1, c :: rest =>
    if old.isPrefixOf (c :: rest) ∧ old ≠ [] then
      new ++ replaceAllFuel old new fuel ((c :: rest).drop old.length)
    else c :: replaceAllFuel old new fuel rest

/-- Python `str.replace` on strings. -/
def pyReplace (s old new : String) : String :=
  ⟨replaceAllFuel old.data new.data s.data.length s.data⟩

/-! ## JSON values and `json.loads`

The parsed form of a JSON document, as Python's `json` module would
deliver it (`dict`s become key/value lists in insertion order).
`json.loads` itself is an external library; it is passed to the embedded
functions as an oracle `loads : String → Except Unit Json`, where
`.error` models a raised `JSONDecodeError`. -/

inductive Json where
  | null : Json
  | bool : Bool → Json
  | num : Int → Json
  | str : String → Json
  | arr : List Json → Json
  | obj : List (String × Json) → Json

/-- Python truthiness of a parsed JSON value (`if structured_data:`):
`None`, `False`, `0`, `""`, `[]` and `{}` are falsy. -/
def pyTruthy : Json → Bool
  | .null => false
  | .bool b => b
  | .num n => n != 0
  | .str s => !(s = "")
  | .arr xs => !xs.isEmpty
  | .obj kvs => !kvs.isEmpty

/-- Dictionary lookup underlying Python `dict.get`. -/
def jlookup (kvs : List (String × Json)) (k : String) : Option Json :=
  (kvs.find? fun p => p.1 == k).map (·.2)

/-- Python `x.get(k)` — returns `None` (here `none`) when the key is
missing, raises `AttributeError` (here `.error ()`) when `x` is not a
dict. -/
def jget (j : Json) (k : String) : Except Unit (Option Json) :=
  match j with
  | .obj kvs => .ok (jlookup kvs k)
  | _ => .error ()

/-- Python `x.get(k, default)` with a default value. -/
def jgetD (j : Json) (k : String) (dflt : Json) : Except Unit Json :=
  match j with
  | .obj kvs => .ok ((jlookup kvs k).getD dflt)
  | _ => .error ()

/-- Drop an `Except` into the `Option` shape produced by wrapping the call
in `try: ... except: return None`. -/
def exceptToOption : Except Unit Json → Option Json
  | .ok j => some j
  | .error _ => none

/-! ## Structured-response parser (`candidates/utils.py`,
`parse_structured_response`, lines 119–136) -/

/-- The capture of the regex `re.search(r'```json\s*(.*?)\s*```', text,
re.DOTALL)`: the segment between the first occurrence of `` ```json `` and
the next occurrence of `` ``` `` after it, with surrounding whitespace
stripped (the greedy leading `\s*` and the lazy `(.*?)` followed by `\s*`
amount exactly to a two-sided strip of that segment). -/
def findFenced (text : String) : Option String :=
  match strFirstIdx "```json" text with
  | none => none
  | some i =>
    let rest := text.data.drop (i + 7)
    match firstIdxAux "```".data rest 0 with
    | none => none
    | some m => some ⟨trimWsL (rest.take m)⟩

/-- The match of the regex `re.search(r'\{.*\}', text, re.DOTALL)`: from
the first `{` to the last `}` of the text (leftmost start, greedy `.*`);
no match when no `}` follows the first `{`. -/
def braceSpan (text : String) : Option String :=
  match firstIdxAux [lbrace] text.data 0 with
  | none => none
  | some i =>
    match firstIdxAux [rbrace] text.data.reverse 0 with
    | none => none
    | some k =>
      let j := text.data.length - 1 - k
      if i < j then some ⟨(text.data.drop i).take (j - i + 1)⟩ else none

/-- `parse_structured_response(response_text)`: try the fenced
`` ```json ``` `` block first, then the first `{...}` span; parse the
chosen span with `json.loads` (the `loads` oracle).  The `try/except`
wrapping the whole body turns any parse error into `None` — in
particular a parse error on the fenced block does NOT fall through to the
brace-span strategy. -/
def parse_structured_response (loads : String → Except Unit Json)
    (response_text : String) : Option Json :=
  match findFenced response_text with
  | some s => exceptToOption (loads s)
  | none =>
    match braceSpan response_text with
    | some s => exceptToOption (loads s)
    | none => none

/-! ## LLM adapter (`candidates/utils.py`, `get_ai_response`, lines 42–92) -/

/-- The outcome of one call to an external LLM provider: the call either
raises an exception or yields a text (Python `None` content behaves like
`""`: both are falsy, and the adapter treats them identically). -/
inductive Attempt where
  | raise : Attempt
  | value : String → Attempt

/-- The fixed failure string returned when the Groq branch yielded nothing
and no Gemini key is configured. -/
def geminiUnconfiguredMsg : String :=
  "AI Service Error: Groq failed and Gemini is not configured."

/-- The fixed failure string returned when every provider attempt has been
exhausted. -/
def disconnectedMsg : String :=
  "The AI high-council is currently disconnected. Please check your internet or API keys."

/-- The ordered Gemini model identifiers of `models_to_try`. -/
def geminiModels : List String :=
  ["gemini-2.0-flash", "gemini-1.5-flash", "gemini-pro"]

/-- The Gemini `for model_name in models_to_try` loop: per-model exceptions
are caught and skipped, falsy (`None`/empty) texts are skipped, the first
non-empty text is returned. -/
def tryGeminiModels (gem : String → Attempt) : List String → Option String
  | [] => none
  | m :: rest =>
    match gem m with
    | .raise => tryGeminiModels gem rest
    | .value s => if s = "" then tryGeminiModels gem rest else s

/-- `get_ai_response(prompt, system_instruction)`.
`groqKey`/`gemKey` model the truthiness of `settings.GROQ_API_KEY` /
`settings.GEMINI_API_KEY`; `groq` is the Groq provider call (raising or
returning the message content); `configOk = false` models
`genai.configure` raising (caught by the outer `except`, which then falls
to the final return); `gem` is the per-model Gemini call on the fixed
prompt and system instruction.  The Groq branch returns only a truthy
response; on exception or falsy content the code falls through to the
Gemini block. -/
def groqStep (groqKey : Bool) (prompt : String)
    (system_instruction : Option String)
    (groq : String → Option String → Attempt) : Option String :=
  if groqKey then
    match groq prompt system_instruction with
    | .raise => none
    | .value s => if s = "" then none else some s
  else none

/-- The two-tier fallback of `get_ai_response`, with the Groq block
factored out as `groqStep` above. -/
def get_ai_response (groqKey gemKey configOk : Bool)
    (prompt : String) (system_instruction : Option String)
    (groq : String → Option String → Attempt)
    (gem : String → String → Option String → Attempt) : String :=
  match groqStep groqKey prompt system_instruction groq with
  | some s => s
  | none =>
    if !gemKey then geminiUnconfiguredMsg
    else if !configOk then disconnectedMsg
    else
      match tryGeminiModels (fun m => gem m prompt system_instruction) geminiModels with
      | some s => s
      | none => disconnectedMsg

/-! ## Web search adapter (`candidates/utils.py`, `web_search`,
lines 14–40) -/

/-- One result dict from `ddgs.text(...)`: the `title`, `body` and `href`
fields, each possibly absent (`r.get(...)` yielding `None`). -/
structure SearchResult where
  title : Option String
  body : Option String
  href : Option String
deriving DecidableEq

/-- Truthiness of `r.get('body')`. -/
def optTruthy : Option String → Bool
  | none => false
  | some s => !(s = "")

/-- Python interpolation `f"{x}"` of an optional string (`None` prints as
`"None"`). -/
def pyShow : Option String → String
  | none => "None"
  | some s => s

/-- The fixed sentinel returned when every search attempt failed or
returned an empty result list. -/
def noResultsSentinel : String :=
  "Operational Status: Real-time search returned zero hits. AI-Internal knowledge required."

/-- The `f"Title: ...\nSnippet: ...\nSource: ..."` line group for one
result. -/
def formatResult (r : SearchResult) : String :=
  "Title: " ++ pyShow r.title ++ "\nSnippet: " ++ pyShow r.body ++
    "\nSource: " ++ pyShow r.href

/-- `search_context`: the newline-join of the formatted results whose
`body` is truthy. -/
def formatResults (rs : List SearchResult) : String :=
  pyJoin "\n" ((rs.filter fun r => optTruthy r.body).map formatResult)

/-- `queries_to_try`: the full query, plus the first four words when the
query splits into more than five words. -/
def triedQueries (query : String) : List String :=
  if (pySplit query).length > 5 then
    [query, pyJoin " " ((pySplit query).take 4)]
  else [query]

/-- The `for q in queries_to_try` loop of `web_search`: a raising provider
call (`.error`) is logged and skipped; an empty result list falls through
to the next query; a non-empty result list returns its formatted context
immediately (even when that context is the empty string). -/
def webSearchLoop (ddg : String → Except Unit (List SearchResult)) :
    List String → String
  | [] => noResultsSentinel
  | q :: rest =>
    match ddg q with
    | .error _ => webSearchLoop ddg rest
    | .ok rs => if rs = [] then webSearchLoop ddg rest else formatResults rs

/-- `web_search(query)`, with the provider `ddgs.text` as the oracle
`ddg`. -/
def web_search (ddg : String → Except Unit (List SearchResult))
    (query : String) : String :=
  webSearchLoop ddg (triedQueries query)

/-! ## Context assembly (`candidates/services.py`, `get_relevant_context`,
lines 9–60): the query-construction portion. -/

/-- The nickname resolution map, in its Python `dict` insertion order. -/
def nicknames : List (String × String) :=
  [("kpoli", "KP Sharma Oli"), ("kp oli", "KP Sharma Oli"),
   ("prachanda", "Pushpa Kamal Dahal"), ("deuba", "Sher Bahadur Deuba"),
   ("rabi", "Rabi Lamichhane"), ("balen", "Balendra Shah"),
   ("gyane", "Gyanendra Shahi")]

/-- The `for nick, full in nicknames.items()` loop: each nickname is
tested against the lowercase of the ORIGINAL query (computed once), and on
a hit is replaced, case-sensitively, in the running refined query. -/
def refineQuery (user_query : String) : String :=
  let query_lower := pyLower user_query
  nicknames.foldl
    (fun refined p =>
      if containsSub query_lower p.1 then pyReplace refined p.1 p.2 else refined)
    user_query

/-- The search query sent to `web_search`: the refined query, with
`" Nepal politics"` appended unless `'nepal'` already occurs in its
lowercase form. -/
def searchQueryOf (user_query : String) : String :=
  let refined := refineQuery user_query
  if !containsSub (pyLower refined) "nepal" then refined ++ " Nepal politics"
  else refined

/-! ## Manifesto post-processing (`candidates/services.py`,
`process_manifesto_upload`, lines 62–77) -/

/-- The manifesto record fields touched by the pipeline
(`candidates/models.py`, `Manifesto`): all three are nullable text
columns, `none` on a freshly created record.  `vision_summary` and
`key_promises` hold whatever Python value the pipeline assigns (a parsed
JSON value or a fallback string), `ai_vision_analysis` holds raw text. -/
structure Manifesto where
  vision_summary : Option Json := none
  key_promises : Option Json := none
  ai_vision_analysis : Option String := none

/-- `process_manifesto_upload(manifesto_obj, raw_analysis, text_content)`:
parse the raw analysis; when the parse yields a truthy value, populate
`vision_summary` from `summary` (default: the 500-character prefix of the
extracted text) and `key_promises` from `promises` (default: the empty
string) and store the raw analysis unchanged; otherwise fall back to the
500-character prefix for `vision_summary`, leave `key_promises` untouched,
and still store the raw analysis unchanged.  A truthy non-dict parse makes
the Python `.get` calls raise `AttributeError` (`.error`). -/
def process_manifesto_upload (loads : String → Except Unit Json)
    (manifesto_obj : Manifesto) (raw_analysis text_content : String) :
    Except Unit Manifesto :=
  let structured_data := parse_structured_response loads raw_analysis
  match structured_data with
  | some sd =>
    if pyTruthy sd then
      match jgetD sd "summary" (.str (pyStrTake text_content 500)),
            jgetD sd "promises" (.str "") with
      | .ok s, .ok p =>
        .ok { manifesto_obj with
              vision_summary := some s, key_promises := some p,
              ai_vision_analysis := some raw_analysis }
      | _, _ => .error ()
    else
      .ok { manifesto_obj with
            vision_summary := some (.str (pyStrTake text_content 500)),
            ai_vision_analysis := some raw_analysis }
  | none =>
    .ok { manifesto_obj with
          vision_summary := some (.str (pyStrTake text_content 500)),
          ai_vision_analysis := some raw_analysis }

/-! ## Intelligence report (`candidates/services.py`,
`get_candidate_intelligence_report`, lines 79–112) -/

/-- The hardcoded score table returned beside a cached analysis. -/
def cachedMatrix : Json :=
  .obj [("economic_vision", .num 75), ("social_progress", .num 82),
        ("political_stability", .num 65), ("infrastructure_focus", .num 70),
        ("diplomatic_acumen", .num 60)]

/-- The fixed baseline score table used when structured parsing fails. -/
def baselineMatrix : Json :=
  .obj [("economic_vision", .num 70), ("social_progress", .num 70),
        ("political_stability", .num 70), ("infrastructure_focus", .num 70),
        ("diplomatic_acumen", .num 70)]

/-- `re.sub(r'```json\s*.*?\s*```', '', raw_response, flags=re.DOTALL)`:
remove every non-overlapping lazy fenced-JSON match, scanning left to
right.  Each match runs from a `` ```json `` opener to the first
`` ``` `` after it; when an opener has no closer, no further match
exists. -/
def stripFencedAux : Nat → List Char → List Char
  | 0, l => l
  | fuel + 1, l =>
    match firstIdxAux "```json".data l 0 with
    | none => l
    | some i =>
      let rest := l.drop (i + 7)
      match firstIdxAux "```".data rest 0 with
      | none => l
      | some m => l.take i ++ stripFencedAux fuel (rest.drop (m + 3))

/-- The `re.sub` of `get_candidate_intelligence_report` on strings. -/
def stripFencedBlocks (s : String) : String :=
  ⟨stripFencedAux s.data.length s.data⟩

/-- `get_candidate_intelligence_report(candidate, regenerate)`, with the
LLM reply abstracted as `rawResponse` and the candidate's stored
`ai_work_analysis` as `cachedAnalysis`.  When not regenerating and a
truthy cached analysis exists, it is returned with the hardcoded score
table.  Otherwise the reply is parsed; the displayed report is the reply
with every fenced JSON block removed and stripped of surrounding
whitespace; the context matrix is `matrix_data.get('strategic_matrix')`
(Python `None`, here `none`, when the key is absent; `AttributeError` on
a truthy non-dict) when the parse is truthy, else the baseline table. -/
def get_candidate_intelligence_report (loads : String → Except Unit Json)
    (regenerate : Bool) (cachedAnalysis : Option String)
    (rawResponse : String) : Except Unit (String × Option Json) :=
  let cachedOk : Option String :=
    if regenerate then none
    else match cachedAnalysis with
      | some s => if s = "" then none else some s
      | none => none
  match cachedOk with
  | some s => .ok (s, some cachedMatrix)
  | none =>
    let matrix_data := parse_structured_response loads rawResponse
    let report_content := pyStrip (stripFencedBlocks rawResponse)
    match matrix_data with
    | some md =>
      if pyTruthy md then
        match jget md "strategic_matrix" with
        | .ok v => .ok (report_content, v)
        | .error _ => .error ()
      else .ok (report_content, some baselineMatrix)
    | none => .ok (report_content, some baselineMatrix)

/-! ## Engagement logging (`candidates/services.py`,
`log_candidate_engagement`, lines 114–132, and `candidates/views.py`,
`CandidateDetailView.get_context_data`, lines 49–78) -/

/-- Modelled from the spec: the `EngagementHistory` model class is not
under `src/candidates/models.py` (only its importers are); per the spec's
data model (§3) it is an append-only per-candidate event row holding view
and search counters with a creation timestamp, which `objects.create`
sets to the current time.  Timestamps are seconds; candidates are
identified by primary key. -/
structure Engagement where
  candidate : Nat
  timestamp : Int
  views : Nat
  searches : Nat
deriving DecidableEq

/-- `log_candidate_engagement(candidate, type)`: when a record for the
candidate (of either kind) exists with timestamp strictly inside the last
hour, nothing is created and `False` is returned; otherwise one record
with the matching counter is appended and `True` is returned.  The
database is the record list `db`, `now` is `timezone.now()`. -/
def log_candidate_engagement (db : List Engagement) (candidate : Nat)
    (type : String) (now : Int) : List Engagement × Bool :=
  let cooldown := now - 3600
  let recent_log := db.any fun r =>
    r.candidate == candidate && decide (r.timestamp > cooldown)
  if recent_log then (db, false)
  else if type = "view" then (db ++ [⟨candidate, now, 1, 0⟩], true)
  else (db ++ [⟨candidate, now, 0, 1⟩], true)

/-- The engagement-logging portion of
`CandidateDetailView.get_context_data` (views.py line 56): every page view
executes `EngagementHistory.objects.create(candidate=..., views=1)`
unconditionally — it does not route through
`log_candidate_engagement`. -/
def candidateDetailLogView (db : List Engagement) (candidate : Nat)
    (now : Int) : List Engagement :=
  db ++ [⟨candidate, now, 1, 0⟩]

/-- The engagement-logging portion of `global_search` (views.py line 236):
one unconditional `searches=1` record per matched candidate. -/
def globalSearchLogEngagement (db : List Engagement) (candidate : Nat)
    (now : Int) : List Engagement :=
  db ++ [⟨candidate, now, 0, 1⟩]

/-! ## Document analysis (`candidates/utils.py`,
`analyze_manifesto_vision` lines 156–178 and `analyze_multiple_manifestos`
lines 180–205; caller `candidates/views.py`, `analysis_lab`).

`get_ai_response` is abstracted here as an oracle
`ai : prompt → system_instruction → reply`, its provider context being
fixed for the duration of one request. -/

/-- One document handed to the analysis lab: a `{'name': ..., 'text': ...}`
pair. -/
structure Doc where
  name : String
  text : String
deriving DecidableEq

/-- The single-document prompt of `analyze_manifesto_vision` (the f-string
body, with the text clipped to 15000 characters). -/
def singleDocPrompt (manifesto_text candidate_name : String) : String :=
  "\n    Analyze the Election Manifesto for " ++ candidate_name ++
  ".\n    \n    TEXT:\n    " ++ pyStrTake manifesto_text 15000 ++
  "\n    \n    EXTRACT & ANALYZE:\n    1. CORE VISION: A high-level 2-sentence summary.\n    2. PRIMARY PROMISES: List the top 5 most significant promises.\n    3. ECONOMIC IMPACT: How does this affect the economy/budget?\n    4. SWOT ANALYSIS: Strengths, Weaknesses, Opportunities, and Threats of this plan.\n    \n    IMPORTANT: You MUST also provide a JSON summary at the end of your response inside a ```json ``` block with these keys:\n    \x7b\n        \"summary\": \"The 2-sentence vision\",\n        \"promises\": \"Bullet points of key promises\",\n        \"feasibility\": \"Score 1-10\",\n        \"sentiment\": \"Neutral/Positive/Visionary\"\n    \x7d\n    "

/-- `analyze_manifesto_vision(manifesto_text, candidate_name)`. -/
def analyze_manifesto_vision (ai : String → String → String)
    (manifesto_text candidate_name : String) : String :=
  ai (singleDocPrompt manifesto_text candidate_name)
    "You are a Policy Researcher and Economic Analyst."

/-- The comparative prompt of `analyze_multiple_manifestos`, built from
exactly the first two documents (texts clipped to 12000 characters). -/
def comparativePrompt (d0 d1 : Doc) : String :=
  "\n    TASK: Comparative Intelligence Briefing on TWO Nepali Election Manifestos.\n    \n    DOC 1 (" ++
  d0.name ++ "):\n    " ++ pyStrTake d0.text 12000 ++
  "\n    \n    DOC 2 (" ++ d1.name ++ "):\n    " ++ pyStrTake d1.text 12000 ++
  "\n    \n    COMPARISON CRITERIA:\n    1. INFRASTRUCTURE & TECH: Compare digital and physical growth plans.\n    2. SOCIAL WELFARE: Health, Education, and Poverty Alleviation.\n    3. REALISM: Which plan is more grounded in fiscal reality?\n    4. JANTAS VERDICT: What are the biggest pros and cons for the average citizen?\n    \n    Format with a comparative table using Markdown.\n    "

/-- `analyze_multiple_manifestos(documents)`: no documents — a fixed
message; exactly one — the single-document path; two or more — the
comparative prompt over `documents[0]` and `documents[1]` only. -/
def analyze_multiple_manifestos (ai : String → String → String) :
    List Doc → String
  | [] => "No documents provided for analysis."
  | [d] => analyze_manifesto_vision ai d.text d.name
  | d0 :: d1 :: _ =>
    ai (comparativePrompt d0 d1) "You are a Senior Political Intelligence Officer."

/-- The document cap in `analysis_lab` (views.py line 340): the collected
document list is clipped to its first two entries before analysis. -/
def analysisLabCap (documents : List Doc) : List Doc :=
  documents.take 2

/-! ## Concrete demonstration material used by witnesses -/

/-- A small flat JSON object text, `{"a": 1}`. -/
def demoJsonA : String := "\x7b\"a\": 1\x7d"

/-- The JSON tail a compliant manifesto-analysis reply carries. -/
def demoJsonSummary : String := "\x7b\"summary\": \"S\", \"promises\": \"P\"\x7d"

/-- A JSON object with only a `summary` key. -/
def demoJsonOnlySummary : String := "\x7b\"summary\": \"S\"\x7d"

/-- A concrete `json.loads` oracle for witnesses: it accepts the three
demonstration texts and raises (`.error`) on everything else — in
particular on `"oops"`, the malformed fenced content used below. -/
def loadsDemo : String → Except Unit Json := fun s =>
  if s = demoJsonSummary then
    .ok (.obj [("summary", .str "S"), ("promises", .str "P")])
  else if s = demoJsonA then .ok (.obj [("a", .num 1)])
  else if s = demoJsonOnlySummary then .ok (.obj [("summary", .str "S")])
  else .error ()

/-- Truthiness failure of a provider attempt: it raised, or its text was
falsy (`None`/empty). -/
def attemptEmpty : Attempt → Bool
  | .raise => true
  | .value s => s == ""

/-- A failed search attempt: the provider raised, or returned an empty
result list. -/
def attemptBad (e : Except Unit (List SearchResult)) : Prop :=
  match e with
  | .error _ => True
  | .ok rs => rs = []

/-- A concrete manifesto-analysis reply that ends in a well-formed fenced
JSON block carrying `summary` and `promises`. -/
def rawCompliantReply : String :=
  "Intro analysis.\n```json\n" ++ demoJsonSummary ++ "\n```"

/-- A concrete LLM reply with no JSON anywhere: no fence, no braces. -/
def rawPlainReply : String := "Operational report with no machine tail."

/-- A concrete reply whose only JSON is a fenced object carrying just
`summary` — no `promises`, no `strategic_matrix`. -/
def rawOnlySummaryReply : String := "```json " ++ demoJsonOnlySummary ++ " ```"

/-! ## Claims about the structured-response parser -/

/-- Claim C2: for every `json.loads` behaviour and every input text,
`parse_structured_response` is total (never raises) and follows the
strategy order: when a fenced `` ```json ``` `` block is found, the result
is exactly the (caught) parse of its content; only when no fenced block is
found is the first `{...}` span parsed; when neither is present the result
is the `None` sentinel. -/
theorem parser_strategy_order_and_sentinel :
    ∀ (loads : String → Except Unit Json) (text : String),
      (∀ s, findFenced text = some s →
        parse_structured_response loads text = exceptToOption (loads s)) ∧
      (findFenced text = none → ∀ s, braceSpan text = some s →
        parse_structured_response loads text = exceptToOption (loads s)) ∧
      (findFenced text = none → braceSpan text = none →
        parse_structured_response loads text = none) := by
  intro loads text
  refine ⟨?_, ?_, ?_⟩ <;> intros <;> simp [parse_structured_response, *]

/-- Witness for claim C2 at a concrete reply: the fenced block is found
and its parse is returned. -/
theorem parser_strategy_order_witness :
    findFenced ("```json " ++ demoJsonA ++ " ```") = some demoJsonA ∧
    parse_structured_response loadsDemo ("```json " ++ demoJsonA ++ " ```") =
      some (.obj [("a", .num 1)]) := by
  refine ⟨rfl, ?_⟩
  have h := (parser_strategy_order_and_sentinel loadsDemo
    ("```json " ++ demoJsonA ++ " ```")).1 demoJsonA rfl
  exact h.trans rfl

/-- Claim C9: when the input contains a fenced `` ```json ``` `` block
whose contents fail to parse, `parse_structured_response` returns `None`
without attempting the `{...}`-span strategy — the `try/except` wraps both
strategies, so the parse error short-circuits the whole function. -/
theorem fenced_parse_error_shortcircuits :
    ∀ (loads : String → Except Unit Json) (text s : String),
      findFenced text = some s → loads s = .error () →
      parse_structured_response loads text = none := by
  intro loads text s hf hl
  simp [parse_structured_response, hf, exceptToOption, hl]

/-- Witness for claim C9: a reply whose fenced block is malformed but
which carries a well-formed `{...}` span later; the parser still returns
`None`. -/
theorem fenced_parse_error_shortcircuits_witness :
    findFenced ("```json oops``` " ++ demoJsonA) = some "oops" ∧
    loadsDemo "oops" = .error () ∧
    braceSpan ("```json oops``` " ++ demoJsonA) = some demoJsonA ∧
    exceptToOption (loadsDemo demoJsonA) = some (.obj [("a", .num 1)]) ∧
    parse_structured_response loadsDemo ("```json oops``` " ++ demoJsonA) = none := by
  exact ⟨rfl, rfl, rfl, rfl,
    fenced_parse_error_shortcircuits loadsDemo _ "oops" rfl rfl⟩

/-! ## Claim about the document-analysis dispatch -/

/-- Claim C6: `analyze_multiple_manifestos` invokes the single-document
analysis path on exactly one document, the comparative path on two, and on
more than two documents behaves exactly as on its first two documents
alone (equivalently, as on the `documents[:2]` cap applied by
`analysis_lab`). -/
theorem document_analysis_path_selection :
    ∀ (ai : String → String → String),
      (∀ d : Doc, analyze_multiple_manifestos ai [d] =
        analyze_manifesto_vision ai d.text d.name) ∧
      (∀ (d0 d1 : Doc) (rest : List Doc),
        analyze_multiple_manifestos ai (d0 :: d1 :: rest) =
          ai (comparativePrompt d0 d1)
            "You are a Senior Political Intelligence Officer.") ∧
      (∀ (d0 d1 : Doc) (rest : List Doc),
        analyze_multiple_manifestos ai (d0 :: d1 :: rest) =
          analyze_multiple_manifestos ai (analysisLabCap (d0 :: d1 :: rest))) := by
  intro ai
  exact ⟨fun _ => rfl, fun _ _ _ => rfl, fun _ _ _ => rfl⟩

/-! ## Claim about query augmentation -/

/-- Claim C7: the query-construction step of `get_relevant_context`
appends `" Nepal politics"` to the (nickname-refined) query exactly when
`'nepal'` does not occur in it case-insensitively, and otherwise sends the
refined query to the search adapter unmodified; moreover, on a query free
of all nicknames the refined query IS the user query, so the two
properties hold of the user query verbatim. -/
theorem query_augmentation_nepal_suffix :
    ∀ q : String,
      (containsSub (pyLower (refineQuery q)) "nepal" = false →
        searchQueryOf q = refineQuery q ++ " Nepal politics") ∧
      (containsSub (pyLower (refineQuery q)) "nepal" = true →
        searchQueryOf q = refineQuery q) ∧
      ((∀ p ∈ nicknames, containsSub (pyLower q) p.1 = false) →
        refineQuery q = q) := by
  intro q
  refine ⟨fun h => by simp [searchQueryOf, h], fun h => by simp [searchQueryOf, h], ?_⟩
  intro h
  have h1 := h ("kpoli", "KP Sharma Oli") (by simp [nicknames])
  have h2 := h ("kp oli", "KP Sharma Oli") (by simp [nicknames])
  have h3 := h ("prachanda", "Pushpa Kamal Dahal") (by simp [nicknames])
  have h4 := h ("deuba", "Sher Bahadur Deuba") (by simp [nicknames])
  have h5 := h ("rabi", "Rabi Lamichhane") (by simp [nicknames])
  have h6 := h ("balen", "Balendra Shah") (by simp [nicknames])
  have h7 := h ("gyane", "Gyanendra Shahi") (by simp [nicknames])
  simp [refineQuery, nicknames, h1, h2, h3, h4, h5, h6, h7]

/-- Witness for claim C7: a nickname-free query without `'nepal'` gets the
suffix; a query containing `'Nepal'` is sent as-is. -/
theorem query_augmentation_nepal_suffix_witness :
    refineQuery "budget plans" = "budget plans" ∧
    searchQueryOf "budget plans" = refineQuery "budget plans" ++ " Nepal politics" ∧
    searchQueryOf "budget plans" = "budget plans Nepal politics" ∧
    searchQueryOf "Nepal election date" = refineQuery "Nepal election date" ∧
    searchQueryOf "Nepal election date" = "Nepal election date" := by
  refine ⟨(query_augmentation_nepal_suffix "budget plans").2.2 (by decide),
    (query_augmentation_nepal_suffix "budget plans").1 (by decide), by decide,
    (query_augmentation_nepal_suffix "Nepal election date").2.1 (by decide),
    by decide⟩

/-! ## Claim about the LLM adapter -/

lemma tryGeminiModels_some_ne (gem : String → Attempt) :
    ∀ (l : List String) (s : String),
      tryGeminiModels gem l = some s → s ≠ "" := by
  intro l
  induction l with
  | nil => intro s h; simp [tryGeminiModels] at h
  | cons m rest ih =>
    intro s h
    unfold tryGeminiModels at h
    split at h
    · exact ih s h
    · split at h
      · exact ih s h
      · rename_i t _ ht
        injection h with h1
        subst h1
        exact ht

lemma tryGeminiModels_all_empty (gem : String → Attempt) :
    ∀ l : List String, (∀ m ∈ l, attemptEmpty (gem m) = true) →
      tryGeminiModels gem l = none := by
  intro l
  induction l with
  | nil => intro _; rfl
  | cons m rest ih =>
    intro h
    unfold tryGeminiModels
    have hm := h m (List.mem_cons_self m rest)
    split
    · exact ih fun x hx => h x (List.mem_cons_of_mem m hx)
    · rename_i t hgm
      rw [hgm] at hm
      have ht : t = "" := by simpa [attemptEmpty] using hm
      rw [if_pos ht]
      exact ih fun x hx => h x (List.mem_cons_of_mem m hx)

lemma groqStep_some_ne (groqKey : Bool) (prompt : String)
    (si : Option String) (groq : String → Option String → Attempt)
    (s : String) : groqStep groqKey prompt si groq = some s → s ≠ "" := by
  intro h
  unfold groqStep at h
  split at h
  · split at h
    · simp at h
    · split at h
      · simp at h
      · rename_i t _ ht
        injection h with h1
        subst h1
        exact ht
  · simp at h

/-- Claim C1: for every configuration, prompt, optional system
instruction and provider behaviour, `get_ai_response` returns a non-empty
string (and, being a total function over explicitly modelled provider
exceptions, never raises); when neither provider key is configured it
returns the fixed failure string of the unconfigured-Gemini branch; and
when every provider attempt raises or yields falsy text it returns one of
the two fixed human-readable failure strings. -/
theorem llm_adapter_total_nonempty_fallback :
    ∀ (groqKey gemKey configOk : Bool) (prompt : String) (si : Option String)
      (groq : String → Option String → Attempt)
      (gem : String → String → Option String → Attempt),
      (get_ai_response groqKey gemKey configOk prompt si groq gem ≠ "") ∧
      (groqKey = false → gemKey = false →
        get_ai_response groqKey gemKey configOk prompt si groq gem =
          geminiUnconfiguredMsg) ∧
      (attemptEmpty (groq prompt si) = true →
        (∀ m ∈ geminiModels, attemptEmpty (gem m prompt si) = true) →
        get_ai_response groqKey gemKey configOk prompt si groq gem =
            geminiUnconfiguredMsg ∨
          get_ai_response groqKey gemKey configOk prompt si groq gem =
            disconnectedMsg) := by
  intro groqKey gemKey configOk prompt si groq gem
  refine ⟨?_, ?_, ?_⟩
  · cases hg : groqStep groqKey prompt si groq with
    | some s =>
      simp only [get_ai_response, hg]
      exact groqStep_some_ne groqKey prompt si groq s hg
    | none =>
      simp only [get_ai_response, hg]
      cases gemKey with
      | false => simp; decide
      | true =>
        cases configOk with
        | false => simp; decide
        | true =>
          cases ht : tryGeminiModels (fun m => gem m prompt si) geminiModels with
          | some s =>
            simp only [Bool.not_true, if_neg, ht]
            simpa using tryGeminiModels_some_ne (fun m => gem m prompt si)
              geminiModels s ht
          | none => simp [ht]; decide
  · intro hgk hgek
    subst hgk; subst hgek
    have hg : groqStep false prompt si groq = none := rfl
    simp [get_ai_response, hg]
  · intro hgroq hgem
    have hg : groqStep groqKey prompt si groq = none := by
      unfold groqStep
      split

      · cases hgq : groq prompt si with
        | raise => rfl
        | value t =>
          rw [hgq] at hgroq
          have ht : t = "" := by simpa [attemptEmpty] using hgroq
          simp [ht]
      · rfl
    simp only [get_ai_response, hg]
    cases gemKey with
    | false => left; simp
    | true =>
      cases configOk with
      | false => right; simp
      | true =>
        right
        have := tryGeminiModels_all_empty (fun m => gem m prompt si)
          geminiModels hgem
        simp [this]

/-- Witness for claim C1: with neither key configured and providers that
always raise, the adapter returns the fixed unconfigured-Gemini failure
string, which is non-empty; with both keys configured and every attempt
raising, it returns one of the two fixed failure strings. -/
theorem llm_adapter_total_nonempty_fallback_witness :
    get_ai_response false false true "ping" none (fun _ _ => Attempt.raise)
        (fun _ _ _ => Attempt.raise) = geminiUnconfiguredMsg ∧
    get_ai_response false false true "ping" none (fun _ _ => Attempt.raise)
        (fun _ _ _ => Attempt.raise) ≠ "" ∧
    (get_ai_response true true true "ping" none (fun _ _ => Attempt.raise)
        (fun _ _ _ => Attempt.raise) = geminiUnconfiguredMsg ∨
      get_ai_response true true true "ping" none (fun _ _ => Attempt.raise)
        (fun _ _ _ => Attempt.raise) = disconnectedMsg) := by
  refine ⟨(llm_adapter_total_nonempty_fallback false false true "ping" none
      (fun _ _ => Attempt.raise) (fun _ _ _ => Attempt.raise)).2.1 rfl rfl,
    (llm_adapter_total_nonempty_fallback false false true "ping" none
      (fun _ _ => Attempt.raise) (fun _ _ _ => Attempt.raise)).1,
    (llm_adapter_total_nonempty_fallback true true true "ping" none
      (fun _ _ => Attempt.raise) (fun _ _ _ => Attempt.raise)).2.2 rfl
      (by intro m _; rfl)⟩

/-! ## Claims about the web search adapter -/

lemma webSearchLoop_all_bad (ddg : String → Except Unit (List SearchResult)) :
    ∀ l : List String, (∀ q ∈ l, attemptBad (ddg q)) →
      webSearchLoop ddg l = noResultsSentinel := by
  intro l
  induction l with
  | nil => intro _; rfl
  | cons q rest ih =>
    intro h
    have hq := h q (List.mem_cons_self q rest)
    unfold webSearchLoop
    split
    · exact ih fun x hx => h x (List.mem_cons_of_mem q hx)
    · rename_i rs hrs
      rw [hrs] at hq
      have : rs = [] := hq
      rw [if_pos this]
      exact ih fun x hx => h x (List.mem_cons_of_mem q hx)

lemma webSearchLoop_cases (ddg : String → Except Unit (List SearchResult)) :
    ∀ l : List String,
      webSearchLoop ddg l = noResultsSentinel ∨
      ∃ q ∈ l, ∃ rs, ddg q = .ok rs ∧ rs ≠ [] ∧
        webSearchLoop ddg l = formatResults rs := by
  intro l
  induction l with
  | nil => left; rfl
  | cons q rest ih =>
    unfold webSearchLoop
    split
    · rcases ih with h | ⟨x, hx, rs, h1, h2, h3⟩
      · left; exact h
      · right; exact ⟨x, List.mem_cons_of_mem q hx, rs, h1, h2, h3⟩
    · rename_i rs hrs
      by_cases he : rs = []
      · rw [if_pos he]
        rcases ih with h | ⟨x, hx, rs2, h1, h2, h3⟩
        · left; exact h
        · right; exact ⟨x, List.mem_cons_of_mem q hx, rs2, h1, h2, h3⟩
      · rw [if_neg he]
        right
        exact ⟨q, List.mem_cons_self q rest, rs, hrs, he, rfl⟩

/-- Claim C8: `web_search` is total (never raises): it tries the full
query, adds one retry with the first four words exactly when the query
splits into more than five words, skips raising provider calls and empty
result lists, and returns the fixed "no results" sentinel when every
attempt fails or comes back empty; any other outcome is the formatted
context of the first non-empty attempt. -/
theorem web_search_fallback_and_sentinel :
    ∀ (ddg : String → Except Unit (List SearchResult)) (query : String),
      ((pySplit query).length > 5 →
        triedQueries query = [query, pyJoin " " ((pySplit query).take 4)]) ∧
      (¬(pySplit query).length > 5 → triedQueries query = [query]) ∧
      ((∀ q ∈ triedQueries query, attemptBad (ddg q)) →
        web_search ddg query = noResultsSentinel) ∧
      (web_search ddg query = noResultsSentinel ∨
        ∃ q ∈ triedQueries query, ∃ rs, ddg q = .ok rs ∧ rs ≠ [] ∧
          web_search ddg query = formatResults rs) := by
  intro ddg query
  refine ⟨fun h => by simp [triedQueries, h], fun h => by simp [triedQueries, h],
    fun h => webSearchLoop_all_bad ddg (triedQueries query) h,
    webSearchLoop_cases ddg (triedQueries query)⟩

/-- Witness for claim C8: a six-word query gets the four-word retry; with
a provider that always raises, the sentinel comes back. -/
theorem web_search_fallback_witness :
    triedQueries "one two three four five six" =
      ["one two three four five six", "one two three four"] ∧
    web_search (fun _ => .error ()) "news" = noResultsSentinel := by
  refine ⟨((web_search_fallback_and_sentinel (fun _ => .error ())
      "one two three four five six").1 (by decide)).trans (by decide), ?_⟩
  exact (web_search_fallback_and_sentinel (fun _ => .error ()) "news").2.2.1
    (fun q _ => trivial)

/-- Claim C10: when the provider returns a non-empty result list in which
no result carries a truthy `body` snippet, `web_search` returns the empty
string — not the "no results" sentinel — because the non-empty list is
formatted immediately and every result is filtered out of the digest. -/
theorem web_search_bodiless_results_empty_string :
    ∀ (ddg : String → Except Unit (List SearchResult)) (query : String)
      (rs : List SearchResult),
      ddg query = .ok rs → rs ≠ [] →
      (∀ r ∈ rs, optTruthy r.body = false) →
      web_search ddg query = "" ∧ web_search ddg query ≠ noResultsSentinel := by
  intro ddg query rs hok hne hbody
  have hfilter : rs.filter (fun r => optTruthy r.body) = [] := by
    rw [List.filter_eq_nil_iff]
    intro r hr
    simp [hbody r hr]
  have hcons : ∃ t, triedQueries query = query :: t := by
    unfold triedQueries
    split
    · exact ⟨_, rfl⟩
    · exact ⟨_, rfl⟩
  obtain ⟨t, ht⟩ := hcons
  have : web_search ddg query = formatResults rs := by
    unfold web_search
    rw [ht]
    unfold webSearchLoop
    rw [hok]
    simp [hne]
  rw [this]
  unfold formatResults
  rw [hfilter]
  exact ⟨rfl, by decide⟩

/-- Witness for claim C10: one concrete result with a title and a link but
no snippet; the adapter returns the empty string. -/
theorem web_search_bodiless_results_witness :
    web_search (fun _ => .ok [⟨some "T", none, some "u"⟩]) "balen" = "" ∧
    web_search (fun _ => .ok [⟨some "T", none, some "u"⟩]) "balen" ≠
      noResultsSentinel := by
  exact web_search_bodiless_results_empty_string
    (fun _ => .ok [⟨some "T", none, some "u"⟩]) "balen"
    [⟨some "T", none, some "u"⟩] rfl (by decide) (by decide)

/-! ## Claims about manifesto and report post-processing -/

/-- Counterexample to claim C3: at a concrete reply carrying a
well-formed fenced JSON block with `summary` and `promises`, processing
does store those two values — but the analysis text stored for display is
the raw reply unchanged, still containing the fenced `` ```json `` block.
The stripping half of the claim is false: `process_manifesto_upload`
assigns `ai_vision_analysis = raw_analysis` verbatim. -/
theorem manifesto_json_block_not_stripped :
    process_manifesto_upload loadsDemo ⟨none, none, none⟩ rawCompliantReply
        "doc text" =
      .ok ⟨some (.str "S"), some (.str "P"), some rawCompliantReply⟩ ∧
    containsSub rawCompliantReply "```json" = true ∧
    (findFenced rawCompliantReply).isSome = true := by
  exact ⟨rfl, rfl, rfl⟩

/-- Claim C3 as amended: a reply with a truthy parsed JSON object carrying
`summary` and `promises` keys has exactly those two values stored on
`vision_summary` and `key_promises`, and the raw analysis text stored
UNCHANGED (fenced JSON block included) on `ai_vision_analysis`; no
stripping happens on the manifesto path. -/
theorem manifesto_roundtrip_raw_kept :
    ∀ (loads : String → Except Unit Json) (m : Manifesto) (raw text : String)
      (kvs : List (String × Json)) (s p : Json),
      parse_structured_response loads raw = some (.obj kvs) → kvs ≠ [] →
      jlookup kvs "summary" = some s → jlookup kvs "promises" = some p →
      process_manifesto_upload loads m raw text =
        .ok ⟨some s, some p, some raw⟩ := by
  intro loads m raw text kvs s p hp hk hs hpp
  have ht : pyTruthy (.obj kvs) = true := by
    cases kvs with
    | nil => exact absurd rfl hk
    | cons a l => rfl
  simp only [process_manifesto_upload, hp]
  rw [if_pos ht]
  simp [jgetD, hs, hpp]

/-- Witness for the amended claim C3 at the concrete compliant reply. -/
theorem manifesto_roundtrip_raw_kept_witness :
    process_manifesto_upload loadsDemo ⟨none, some (.str "old"), none⟩
        rawCompliantReply "doc text" =
      .ok ⟨some (.str "S"), some (.str "P"), some rawCompliantReply⟩ := by
  exact manifesto_roundtrip_raw_kept loadsDemo ⟨none, some (.str "old"), none⟩
    rawCompliantReply "doc text"
    [("summary", .str "S"), ("promises", .str "P")] (.str "S") (.str "P")
    rfl (by simp) rfl rfl

/-- Counterexample to claim C4: on a reply where structured parsing fails,
`process_manifesto_upload` sets `vision_summary` to the truncated prefix
but does NOT touch `key_promises` — on a fresh record it stays empty
(`none`), so a required structured field IS left empty, contrary to the
claim. -/
theorem manifesto_parse_failure_leaves_promises_unset :
    process_manifesto_upload loadsDemo ⟨none, none, none⟩ rawPlainReply
        "manifesto body text" =
      .ok ⟨some (.str "manifesto body text"), none, some rawPlainReply⟩ ∧
    (Manifesto.key_promises
      ⟨some (.str "manifesto body text"), none, some rawPlainReply⟩) = none := by
  exact ⟨rfl, rfl⟩

/-- Claim C4 as amended: on a parse failure the manifesto path falls back
to the truncated 500-character prefix for `vision_summary` only, leaving
`key_promises` unchanged (hence empty on a fresh record); when the parse
succeeds as a non-empty object missing `promises`, `key_promises` becomes
the empty string; on the report path a parse failure yields the fixed
baseline score table, but a successful parse missing `strategic_matrix`
yields the `None` sentinel rather than the baseline. -/
theorem post_processing_fallback_fields :
    ∀ (loads : String → Except Unit Json) (m : Manifesto) (raw text : String),
      (parse_structured_response loads raw = none →
        process_manifesto_upload loads m raw text =
          .ok { m with
                  vision_summary := some (.str (pyStrTake text 500))
                  ai_vision_analysis := some raw }) ∧
      (∀ kvs, parse_structured_response loads raw = some (.obj kvs) →
        kvs ≠ [] → jlookup kvs "promises" = none →
        process_manifesto_upload loads m raw text =
          .ok ⟨some ((jlookup kvs "summary").getD (.str (pyStrTake text 500))),
               some (.str ""), some raw⟩) ∧
      (∀ cached, parse_structured_response loads raw = none →
        get_candidate_intelligence_report loads true cached raw =
          .ok (pyStrip (stripFencedBlocks raw), some baselineMatrix)) ∧
      (∀ kvs cached, parse_structured_response loads raw = some (.obj kvs) →
        kvs ≠ [] → jlookup kvs "strategic_matrix" = none →
        get_candidate_intelligence_report loads true cached raw =
          .ok (pyStrip (stripFencedBlocks raw), none)) := by
  intro loads m raw text
  refine ⟨?_, ?_, ?_, ?_⟩
  · intro hp
    simp [process_manifesto_upload, hp]
  · intro kvs hp hk hpp
    have ht : pyTruthy (.obj kvs) = true := by
      cases kvs with
      | nil => exact absurd rfl hk
      | cons a l => rfl
    simp only [process_manifesto_upload, hp]
    rw [if_pos ht]
    simp [jgetD, hpp]
  · intro cached hp
    simp [get_candidate_intelligence_report, hp]
  · intro kvs cached hp hk hsm
    have ht : pyTruthy (.obj kvs) = true := by
      cases kvs with
      | nil => exact absurd rfl hk
      | cons a l => rfl
    simp only [get_candidate_intelligence_report, hp]
    rw [if_pos ht]
    simp [jget, hsm]

/-- Witness for the amended claim C4, exercising all four modes at
concrete replies: parse failure on the manifesto path (promises left
unset), successful parse missing `promises` (empty-string fallback),
parse failure on the report path (baseline table), successful parse
missing `strategic_matrix` (`None` matrix). -/
theorem post_processing_fallback_fields_witness :
    process_manifesto_upload loadsDemo ⟨none, none, none⟩ rawPlainReply
        "manifesto body text" =
      .ok { (⟨none, none, none⟩ : Manifesto) with
              vision_summary := some (.str (pyStrTake "manifesto body text" 500))
              ai_vision_analysis := some rawPlainReply } ∧
    process_manifesto_upload loadsDemo ⟨none, none, none⟩ rawOnlySummaryReply
        "doc" =
      .ok ⟨some ((jlookup [("summary", Json.str "S")] "summary").getD
            (.str (pyStrTake "doc" 500))), some (.str ""),
           some rawOnlySummaryReply⟩ ∧
    get_candidate_intelligence_report loadsDemo true none rawPlainReply =
      .ok (pyStrip (stripFencedBlocks rawPlainReply), some baselineMatrix) ∧
    get_candidate_intelligence_report loadsDemo true none rawOnlySummaryReply =
      .ok (pyStrip (stripFencedBlocks rawOnlySummaryReply), none) := by
  refine ⟨(post_processing_fallback_fields loadsDemo ⟨none, none, none⟩
      rawPlainReply "manifesto body text").1 rfl,
    (post_processing_fallback_fields loadsDemo ⟨none, none, none⟩
      rawOnlySummaryReply "doc").2.1 [("summary", .str "S")] rfl (by simp) rfl,
    (post_processing_fallback_fields loadsDemo ⟨none, none, none⟩
      rawPlainReply "unused").2.2.1 none rfl,
    (post_processing_fallback_fields loadsDemo ⟨none, none, none⟩
      rawOnlySummaryReply "unused").2.2.2 [("summary", .str "S")] none rfl
      (by simp) rfl⟩

/-! ## Claims about engagement logging -/

/-- Counterexample to claim C5: view-events, as the deployed candidate
detail view actually logs them (an unconditional
`EngagementHistory.objects.create`, not a call to
`log_candidate_engagement`), are NOT de-duplicated: two views of
candidate 1, ten minutes apart — well within the 1-hour window — produce
two engagement records. -/
theorem detail_view_engagement_no_dedup :
    candidateDetailLogView (candidateDetailLogView [] 1 0) 1 600 =
      [⟨1, 0, 1, 0⟩, ⟨1, 600, 1, 0⟩] ∧
    (600 : Int) - 0 < 3600 ∧
    (candidateDetailLogView (candidateDetailLogView [] 1 0) 1 600).length = 2 := by
  exact ⟨rfl, by decide, rfl⟩

/-- Claim C5 as amended: events routed through the service
`log_candidate_engagement` ARE de-duplicated as claimed — a second
view-event for the same candidate within one hour of the first creates no
record, and a third after the window has elapsed creates a second record;
but the candidate detail view and global search bypass this service and
append records unconditionally. -/
theorem engagement_dedup_via_service :
    ∀ (c : Nat) (t0 t1 t2 : Int),
      t0 ≤ t1 → t1 < t0 + 3600 → t0 + 3600 ≤ t2 →
      log_candidate_engagement [] c "view" t0 = ([⟨c, t0, 1, 0⟩], true) ∧
      log_candidate_engagement [⟨c, t0, 1, 0⟩] c "view" t1 =
        ([⟨c, t0, 1, 0⟩], false) ∧
      log_candidate_engagement [⟨c, t0, 1, 0⟩] c "view" t2 =
        ([⟨c, t0, 1, 0⟩, ⟨c, t2, 1, 0⟩], true) := by
  intro c t0 t1 t2 h01 h1w h2w
  refine ⟨by simp [log_candidate_engagement], ?_, ?_⟩
  · have hgt : t0 > t1 - 3600 := by omega
    simp [log_candidate_engagement, hgt]
  · have hle : ¬t0 > t2 - 3600 := by omega
    simp [log_candidate_engagement, hle]

/-- Witness for the amended claim C5 at concrete times: events at 0 s,
1800 s (suppressed) and 3600 s (recorded) for candidate 1. -/
theorem engagement_dedup_via_service_witness :
    log_candidate_engagement [] 1 "view" 0 = ([⟨1, 0, 1, 0⟩], true) ∧
    log_candidate_engagement [⟨1, 0, 1, 0⟩] 1 "view" 1800 =
      ([⟨1, 0, 1, 0⟩], false) ∧
    log_candidate_engagement [⟨1, 0, 1, 0⟩] 1 "view" 3600 =
      ([⟨1, 0, 1, 0⟩, ⟨1, 3600, 1, 0⟩], true) := by
  exact engagement_dedup_via_service 1 0 1800 3600 (by decide) (by decide)
    (by decide)

end Votors
